import Mathlib

/-!
Verification of the message classification engine of the `ai-extension-gmail`
backend (`backend/models/classifier.py`, `backend/models/ml_classifier.py`,
`backend/models/model_learning.py`).

Modelling conventions:
* Python strings are modelled as Lean `String` / `List Char`; `str.lower()` is
  `Char.toLower` (the two agree on ASCII input, which is all the pattern
  tables contain).
* Python's substring test `p in s` is the executable `substr p s`.
* `re.search` is only ever applied to two shapes of pattern in this code
  base: plain literals, and `pre.*post` (where `.` does not match a newline);
  both shapes are modelled by `SenderPat.search`.
* The opaque inference backend (transformers pipeline / custom model), the
  10-second wall-clock timeout, and Python exceptions are modelled
  environmentally by `MLEnv`: Boolean flags say whether a given call times
  out / raises, and oracles give the label the pipeline would return.
* Floats are modelled as exact rationals; the presentation-level
  `round(x, 2)` of `get_accuracy_estimate` is abstracted away.
-/

/-- Substring test, Python's `p in s` on strings (contiguous occurrence). -/
def substr (p : List Char) : List Char → Bool
  | [] => p.isEmpty
  | c :: rest => p.isPrefixOf (c :: rest) || substr p rest

/-- Lowercase a string into its character list (Python `s.lower()`). -/
def lowerChars (s : String) : List Char := s.toList.map Char.toLower

/-- Search for the regex `pre.*post` inside `s` (with `.` not matching a
newline), as `re.search` does for the non-literal sender patterns. -/
def gapSearch (pre post s : List Char) : Bool :=
  (List.range (s.length + 1)).any (fun i =>
    pre.isPrefixOf (List.drop i s) &&
    (List.range (s.length + 1)).any (fun j =>
      decide (i + pre.length ≤ j) && post.isPrefixOf (List.drop j s) &&
      ((List.take (j - (i + pre.length)) (List.drop (i + pre.length) s)).all
        (fun c => c != '\n'))))

/-- Sender pattern: either a literal substring or a `pre.*post` regex.
These are the only two shapes appearing in `classifier.py`. -/
inductive SenderPat where
  | lit : String → SenderPat
  | gap : String → String → SenderPat
deriving DecidableEq

/-- Run a sender pattern against an (already lowercased) character list,
as `re.search(pattern, sender_lower)` does. -/
def SenderPat.search : SenderPat → List Char → Bool
  | .lit p, s => substr p.toList s
  | .gap pre post, s => gapSearch pre.toList post.toList s

/-- The closed category enumeration of the classifier. -/
inductive Category where
  | needs_reply : Category
  | important : Category
  | ignore : Category
deriving DecidableEq

/-- Message model (`classifier.py`, class `Message`). -/
structure Message where
  id : String
  subject : String
  sender : String
  preview : String := ""
  timestamp : String
  category : Option Category := none
deriving DecidableEq

/-- Assign a category to a message (`message.category = category`). -/
def setCategory (c : Category) (m : Message) : Message :=
  {m with category := some c}

/-- The three output groups of `classify_batch` (the `categorized` dict). -/
structure Categorized where
  needs_reply : List Message
  important : List Message
  ignore : List Message
deriving DecidableEq

/-- Append a message to the group named by a category
(`categorized[category].append(message)`); groups are kept in processing
order, with the earliest processed message first. -/
def Categorized.add (g : Categorized) (c : Category) (m : Message) : Categorized :=
  match c with
  | .needs_reply => ⟨m :: g.needs_reply, g.important, g.ignore⟩
  | .important => ⟨g.needs_reply, m :: g.important, g.ignore⟩
  | .ignore => ⟨g.needs_reply, g.important, m :: g.ignore⟩

/-- Pointwise concatenation of two group records. -/
def Categorized.append (a b : Categorized) : Categorized :=
  ⟨a.needs_reply ++ b.needs_reply, a.important ++ b.important, a.ignore ++ b.ignore⟩

/-- Read the group named by a category. -/
def Categorized.group (g : Categorized) : Category → List Message
  | .needs_reply => g.needs_reply
  | .important => g.important
  | .ignore => g.ignore

/-- Concatenation of the three groups, in the dict's key order. -/
def Categorized.flatten (g : Categorized) : List Message :=
  g.needs_reply ++ g.important ++ g.ignore

/-- The shared batch loop: classify each message with `f`, stamp the
category on it and append it to that category's group
(`classifier.py` lines 345-359 and `ml_classifier.py` lines 498-525,
with the per-message category choice factored out as `f`). -/
def batchGo (f : Message → Category) : List Message → Categorized
  | [] => ⟨[], [], []⟩
  | m :: rest => (batchGo f rest).add (f m) (setCategory (f m) m)

namespace MessageClassifier

/-- Keywords for the needs-reply category (`self.reply_keywords`). -/
def reply_keywords : List (List Char) :=
  (["question", "?", "please", "request", "urgent",
    "asap", "deadline", "meeting", "call", "respond",
    "reply", "answer", "confirm", "approve", "review",
    "action required", "need your", "would you", "can you",
    "could you", "should we", "when can", "what time",
    "schedule", "availability", "feedback", "input",
    "submit", "complete", "fill out", "required", "must"]).map String.toList

/-- Keywords for the important category (`self.important_keywords`). -/
def important_keywords : List (List Char) :=
  (["important", "critical", "priority", "action required",
    "confirmation", "approval", "decision", "review",
    "update", "announcement", "notice", "reminder",
    "deadline", "due date", "meeting", "conference",
    "project", "task", "assignment", "report",
    "class", "course", "homework", "exam", "test", "quiz",
    "grade", "grades", "syllabus", "lecture", "lesson",
    "teacher", "professor", "instructor", "student",
    "academic", "education", "school", "university",
    "new post", "new assignment", "new material"]).map String.toList

/-- Keywords for the ignore category (`self.ignore_keywords`). -/
def ignore_keywords : List (List Char) :=
  (["unsubscribe", "newsletter", "promotion", "spam",
    "no-reply", "noreply", "donotreply",
    "marketing", "advertisement", "deal",
    "offer", "discount", "sale",
    "digest", "summary", "weekly", "monthly",
    "social media", "facebook", "twitter", "linkedin",
    "instagram", "youtube", "subscription",
    "promotional", "special offer", "limited time"]).map String.toList

/-- Sender patterns that should never be ignored
(`self.important_sender_patterns`, a list of regexes). -/
def important_sender_patterns : List SenderPat :=
  [.lit "classroom.google.com",
   .gap "@" ".edu",
   .lit "teacher@",
   .lit "professor@",
   .lit "instructor@",
   .lit "faculty@",
   .gap "staff@" ".edu",
   .gap "admin@" ".edu",
   .gap "@" "school",
   .gap "@" "university",
   .gap "@" "college",
   .gap "@" "academy"]

/-- Informational keywords (`self.informational_keywords`). -/
def informational_keywords : List (List Char) :=
  (["announcement", "announcements", "new announcement",
    "update", "updates", "notice", "notices",
    "reminder", "reminders", "information", "info",
    "posted", "shared", "published", "available"]).map String.toList

/-- No-reply sender patterns (`self.no_reply_patterns`; all literals). -/
def no_reply_patterns : List (List Char) :=
  (["no-reply@", "noreply@", "no_reply@", "donotreply@",
    "do-not-reply@"]).map String.toList

/-- Important domain substrings (`self.important_domains`). -/
def important_domains : List (List Char) :=
  (["classroom.google.com", "edu", "school", "university",
    "college", "academy"]).map String.toList

/-- Sender patterns to ignore (`self.ignore_sender_patterns`; all
literals, so modelled as substrings). -/
def ignore_sender_patterns : List (List Char) :=
  (["noreply@", "no-reply@", "donotreply@", "newsletter@",
    "marketing@", "promo@", "deals@", "offers@"]).map String.toList

/-- Context-aware ignore keywords (`self.contextual_ignore_keywords`). -/
def contextual_ignore_keywords : List (List Char) :=
  (["notification", "automated"]).map String.toList

/-- Educational keywords checked inside `_is_important_sender`. -/
def educational_keywords : List (List Char) :=
  (["teacher", "professor", "instructor", "faculty", "staff",
    "admin"]).map String.toList

/-- Marketing domains checked inside `_is_marketing_sender`. -/
def marketing_domains : List (List Char) :=
  (["marketing", "promo", "deals", "offers", "newsletter"]).map String.toList

/-- Assignment keywords of `classify_message` (both occurrences use the
same local list). -/
def assignment_keywords : List (List Char) :=
  (["assignment", "homework", "due", "submit", "complete",
    "required", "deadline"]).map String.toList

/-- Direct-request phrases of `classify_message`. -/
def request_phrases : List (List Char) :=
  (["please", "need your", "would you", "can you", "could you",
    "action required"]).map String.toList

/-- Marketing co-indicators of the contextual ignore check. -/
def marketing_indicators : List (List Char) :=
  (["promotion", "deal", "offer", "sale", "discount",
    "marketing"]).map String.toList

/-- Translation of `MessageClassifier._is_important_sender`. -/
def is_important_sender (sender : String) : Bool :=
  let sender_lower := lowerChars sender
  important_sender_patterns.any (fun p => p.search sender_lower)
  || important_domains.any (fun d => substr d sender_lower)
  || educational_keywords.any (fun k => substr k sender_lower)

/-- Translation of `MessageClassifier._is_marketing_sender`. -/
def is_marketing_sender (sender : String) : Bool :=
  let sender_lower := lowerChars sender
  ignore_sender_patterns.any (fun p => substr p sender_lower)
  || marketing_domains.any (fun d => substr d sender_lower)

/-- The reply score of `classify_message`: one point per reply keyword
present in the text, plus two more if the text contains a question mark.
The same formula appears verbatim in the important-sender branch and in
the PRIORITY 3 block. -/
def replyScore (text : List Char) : Nat :=
  reply_keywords.countP (fun k => substr k text)
  + (if text.contains '?' then 2 else 0)

/-- The PRIORITY 2 ignore-keyword loop of `classify_message`: it returns
`ignore` at the first keyword contained in the text that either has
`is_marketing_sender` set, or is a contextual ignore keyword with a
marketing co-indicator also present in the text; otherwise the loop
falls through. -/
def ignoreKeywordFires (isMarketing : Bool) (text : List Char) : Bool :=
  ignore_keywords.any (fun kw =>
    substr kw text &&
    (isMarketing ||
      (contextual_ignore_keywords.contains kw &&
        marketing_indicators.any (fun ind => substr ind text))))

/-- Translation of `MessageClassifier.classify_message`. -/
def classify_message (m : Message) : Category :=
  let subject_lower := lowerChars m.subject
  let preview_lower := lowerChars m.preview
  let sender_lower := lowerChars m.sender
  let combined_text := subject_lower ++ ' ' :: preview_lower
  let impSender := is_important_sender m.sender
  let mktSender := is_marketing_sender m.sender
  let noReplySender := no_reply_patterns.any (fun p => substr p sender_lower)
  let informational := informational_keywords.any (fun k => substr k combined_text)
  if impSender = true then
    if noReplySender = true ∧ informational = true then Category.important
    else
      let rs := replyScore combined_text
      let hasAssignment := assignment_keywords.any (fun k => substr k combined_text)
      let hasRequest := request_phrases.any (fun k => substr k combined_text)
      if 3 ≤ rs ∨ (2 ≤ rs ∧ combined_text.contains '?' = true) then Category.needs_reply
      else if hasAssignment = true ∧ (1 ≤ rs ∨ hasRequest = true) then Category.needs_reply
      else if hasRequest = true ∧ 1 ≤ rs then Category.needs_reply
      else Category.important
  else if mktSender = true then Category.ignore
  else if ignoreKeywordFires mktSender combined_text = true then Category.ignore
  else
    let rs := replyScore combined_text
    let hasAssignment := assignment_keywords.any (fun k => substr k combined_text)
    let impScore := important_keywords.countP (fun k => substr k combined_text)
    if 3 ≤ rs ∨ (2 ≤ rs ∧ combined_text.contains '?' = true) then Category.needs_reply
    else if hasAssignment = true ∧ 1 ≤ rs then Category.needs_reply
    else if 2 ≤ rs then Category.needs_reply
    else if 2 ≤ impScore ∨ (1 ≤ impScore ∧ 1 ≤ rs) then Category.important
    else if hasAssignment = true then Category.important
    else if 1 ≤ rs then Category.important
    else Category.important

/-- Per-message category assigned inside `classify_batch`: the result of
`classify_message`, or `important` when that call raises (the
`except` branch). `exc m = true` models an unexpected exception escaping
`classify_message(m)`. -/
def ruleCat (exc : Message → Bool) (m : Message) : Category :=
  if exc m = true then Category.important else classify_message m

/-- Translation of `MessageClassifier.classify_batch`, parameterised by
the abstract per-message exception predicate `exc`. -/
def classify_batch (exc : Message → Bool) (msgs : List Message) : Categorized :=
  batchGo (ruleCat exc) msgs

end MessageClassifier

namespace MLClassifier

/-- Environment for the hybrid classifier: the opaque inference backend,
the timeout machinery and Python exceptions, all of which are external to
the pure control flow of `ml_classifier.py`.

* `pipelineAvailable`: `self.classifier_pipeline` is loaded (not `None`).
* `modelAvailable`: `self.model` and `self.tokenizer` are loaded.
* `zeroShotLabel m`: the best label the zero-shot pipeline returns for
  `m`, or `none` if the pipeline call raises (the `except` branch of
  `_classify_with_zero_shot` returns `None`).
* `customResult m`: the category `_classify_with_custom_model` returns
  for `m` (already mapped through `category_map`), `none` on error.
* `timedOut m`: the `future.result(timeout=10)` call raises
  `FutureTimeoutError` for `m`.
* `memErr m` / `otherErr m`: an out-of-memory-class / any other
  exception escapes the executor for `m`; `_classify_with_ml_timeout`
  catches each of these separately but returns `None` in every case.
* `excDispatch m`: an unexpected exception escapes
  `classify_message(m)` inside the batch loop (line 501).
* `excRule m`: an unexpected exception escapes
  `_rule_classifier.classify_message(m)` (lines 508 and 519). -/
structure MLEnv where
  pipelineAvailable : Bool
  modelAvailable : Bool
  zeroShotLabel : Message → Option String
  customResult : Message → Option Category
  timedOut : Message → Bool
  memErr : Message → Bool
  otherErr : Message → Bool
  excDispatch : Message → Bool
  excRule : Message → Bool

/-- Fast-path sender substrings of `MLClassifier.classify_message`
(lines 409-417) and of the batch routing loop (line 480); both use the
same seven strings, tested with `pattern in sender_lower`. -/
def fastpath_patterns : List (List Char) :=
  (["classroom.google.com", ".edu", "teacher", "professor",
    "instructor", "faculty", "staff"]).map String.toList

/-- Fast-path routing test: the sender matches some fast-path substring. -/
def is_fastpath_sender (sender : String) : Bool :=
  fastpath_patterns.any (fun p => substr p (lowerChars sender))

/-- Important-sender substrings of the zero-shot pre-filter
(`_classify_with_zero_shot`, lines 184-192; note `"@.edu"` is tested as a
literal substring there, not as a regex). -/
def zs_important_sender_patterns : List (List Char) :=
  (["classroom.google.com", "@.edu", "teacher@", "professor@",
    "instructor@", "faculty@", "staff@"]).map String.toList

/-- Announcement keywords of the zero-shot pre-filter (line 198). -/
def zs_announcement_keywords : List (List Char) :=
  (["announcement", "posted", "shared", "new post",
    "new assignment"]).map String.toList

/-- Reply keywords of the zero-shot pre-filter (line 207). -/
def zs_reply_keywords : List (List Char) :=
  (["question", "?", "please", "request", "urgent", "reply",
    "respond", "deadline", "due", "submit"]).map String.toList

/-- Mapping of the pipeline's best label to a category
(`_classify_with_zero_shot`, lines 236-241). -/
def labelToCategory (lbl : String) : Category :=
  let l := lowerChars lbl
  if substr "needs reply".toList l then Category.needs_reply
  else if substr "important".toList l then Category.important
  else Category.ignore

/-- Translation of `MLClassifier._classify_with_zero_shot`: a rule-based
pre-filter for known important senders, then the opaque pipeline, whose
best label is mapped to a category; `none` when the pipeline call fails. -/
def classify_with_zero_shot (env : MLEnv) (m : Message) : Option Category :=
  let sender_lower := lowerChars m.sender
  let combined_text := lowerChars m.subject ++ ' ' :: lowerChars m.preview
  let impSender := zs_important_sender_patterns.any (fun p => substr p sender_lower)
  let noReply := substr "no-reply".toList sender_lower || substr "noreply".toList sender_lower
  let announcement := zs_announcement_keywords.any (fun k => substr k combined_text)
  if impSender = true then
    if noReply = true ∧ announcement = true then some Category.important
    else if zs_reply_keywords.any (fun k => substr k combined_text) = true then
      some Category.needs_reply
    else some Category.important
  else
    match env.zeroShotLabel m with
    | none => none
    | some lbl => some (labelToCategory lbl)

/-- The inner `_ml_classify` closure of `_classify_with_ml_timeout`:
zero-shot first (when the pipeline is loaded), then the custom model
(when loaded), else `none`. -/
def ml_classify_inner (env : MLEnv) (m : Message) : Option Category :=
  let zs := if env.pipelineAvailable = true then classify_with_zero_shot env m else none
  match zs with
  | some c => some c
  | none => if env.modelAvailable = true then env.customResult m else none

/-- Translation of `MLClassifier._classify_with_ml_timeout`: `none` on
timeout or on any exception escaping the executor (memory errors are
logged differently but behave identically), otherwise the inner result. -/
def classify_with_ml_timeout (env : MLEnv) (m : Message) : Option Category :=
  if env.timedOut m || env.memErr m || env.otherErr m then none
  else ml_classify_inner env m

/-- Translation of `MLClassifier.classify_message`: rule-based fast path
for known senders, else the timed inference attempt, else the rule-based
fallback. -/
def classify_message (env : MLEnv) (m : Message) : Category :=
  if is_fastpath_sender m.sender = true then MessageClassifier.classify_message m
  else
    match classify_with_ml_timeout env m with
    | some c => c
    | none => MessageClassifier.classify_message m

/-- Per-message category assigned by the inference loop of
`classify_batch` (lines 498-514): `classify_message`, with the `except`
branch falling back to a direct rule-based classification and defaulting
to `important` only when that also raises. -/
def mlCat (env : MLEnv) (m : Message) : Category :=
  if env.excDispatch m = true then
    (if env.excRule m = true then Category.important
     else MessageClassifier.classify_message m)
  else classify_message env m

/-- The routing step of `classify_batch` (lines 474-490): split the batch
into rule-routed and inference-eligible messages by the fast-path sender
patterns, then cap the inference-eligible list at 10, moving the excess
into the rule-routed list. Returns `(rule_based_messages, ml_messages)`. -/
def route (msgs : List Message) : List Message × List Message :=
  let rule0 := msgs.filter (fun m => is_fastpath_sender m.sender)
  let ml0 := msgs.filter (fun m => !is_fastpath_sender m.sender)
  if 10 < ml0.length then (rule0 ++ ml0.drop 10, ml0.take 10)
  else (rule0, ml0)

/-- Translation of `MLClassifier.classify_batch`: route, run the
inference loop over the ml messages, then the rule loop over the
rule-routed messages, into one shared group record (the ml loop runs
first, so its results precede the rule loop's inside each group). -/
def classify_batch (env : MLEnv) (msgs : List Message) : Categorized :=
  let r := route msgs
  Categorized.append (batchGo (mlCat env) r.2)
    (batchGo (MessageClassifier.ruleCat env.excRule) r.1)

end MLClassifier

namespace ModelLearningSystem

/-- A stored user correction (`model_learning.py`, `record_correction`). -/
structure Correction where
  message_id : String
  timestamp : String
  predicted : String
  correct : String
  subject : String
  sender : String
  preview : String
deriving DecidableEq

/-- The numeric fields of the dict returned by `get_accuracy_estimate`
in the non-empty case (floats modelled as exact rationals; the
`round(accuracy, 2)` display rounding is abstracted away). -/
structure AccuracyEstimate where
  accuracy_estimate : ℚ
  total_corrections : Nat
  recent_corrections : Nat
  correct_predictions : Nat
  incorrect_predictions : Nat
deriving DecidableEq

/-- Translation of `ModelLearningSystem.get_accuracy_estimate`: `none`
(the "not enough data" dict, which carries no numeric estimate) for an
empty correction list; otherwise the accuracy over the last 50
corrections (`corrections[-50:]`, which is `drop (length - 50)`). -/
def get_accuracy_estimate (corrections : List Correction) : Option AccuracyEstimate :=
  if corrections.isEmpty then none
  else
    let recent := corrections.drop (corrections.length - 50)
    let total := recent.length
    let correct := recent.countP (fun c => c.predicted == c.correct)
    let accuracy : ℚ := if 0 < total then (correct : ℚ) / (total : ℚ) * 100 else 0
    some ⟨accuracy, corrections.length, total, correct, total - correct⟩

end ModelLearningSystem

/-! Basic facts about the text machinery. -/

/-- The executable substring test coincides with list-infix containment. -/
theorem substr_iff (p s : List Char) : substr p s = true ↔ p <:+: s := by
  induction s with
  | nil => simp [substr, List.isEmpty_iff, List.infix_nil]
  | cons c rest ih =>
    simp [substr, List.isPrefixOf_iff_prefix, ih, List.infix_cons_iff]

/-- Substring containment is transitive along infix inclusion of patterns. -/
theorem substr_mono {a b : List Char} (hab : a <:+: b) {s : List Char}
    (hb : substr b s = true) : substr a s = true := by
  rw [substr_iff] at hb ⊢
  exact hab.trans hb

/-- A nonempty pattern that avoids `a` occurs in `l ++ [a]` exactly when
it occurs in `l`. -/
theorem infix_append_singleton_iff {α : Type} {k l : List α} {a : α}
    (hk : k ≠ []) (ha : a ∉ k) : k <:+: l ++ [a] ↔ k <:+: l := by
  constructor
  · rintro ⟨s, t, h⟩
    rcases List.eq_nil_or_concat t with rfl | ⟨t', b, rfl⟩
    · rw [List.append_nil] at h
      rcases List.eq_nil_or_concat k with rfl | ⟨k', c, rfl⟩
      · exact absurd rfl hk
      · simp only [List.concat_eq_append] at h ha
        rw [← List.append_assoc] at h
        have h2 := (List.append_inj' h (by simp)).2
        simp only [List.cons.injEq] at h2
        cases h2.1
        exact (ha (by simp)).elim
    · simp only [List.concat_eq_append] at h
      rw [← List.append_assoc] at h
      have h2 := (List.append_inj' h (by simp)).1
      exact ⟨s, t', h2⟩
  · rintro ⟨s, t, rfl⟩
    exact ⟨s, t ++ [a], by simp⟩

/-- A singleton pattern occurs exactly when its character is present. -/
theorem substr_singleton_iff (a : Char) (s : List Char) :
    substr [a] s = true ↔ a ∈ s := by
  rw [substr_iff]
  constructor
  · rintro ⟨u, v, rfl⟩
    simp
  · intro h
    rcases List.append_of_mem h with ⟨u, v, rfl⟩
    exact ⟨u, v, by simp⟩

/-! Facts about the shared batch loop. -/

/-- Each output group of the batch loop consists of exactly the input
messages that `f` sends to that category, in input order, stamped with
the category. -/
theorem batchGo_group (f : Message → Category) (msgs : List Message) (c : Category) :
    (batchGo f msgs).group c =
      (msgs.filter (fun m => decide (f m = c))).map (fun m => setCategory c m) := by
  induction msgs with
  | nil => cases c <;> rfl
  | cons m rest ih =>
    cases hfm : f m <;> cases c <;>
      simp_all [batchGo, Categorized.add, Categorized.group, List.filter_cons]

/-- Pulling an element out of the middle of a three-way concatenation. -/
theorem cons_middle_perm {α : Type} (x : α) (A B C : List α) :
    (A ++ (x :: B) ++ C).Perm (x :: (A ++ B ++ C)) := by
  have e1 : A ++ (x :: B) ++ C = A ++ x :: (B ++ C) := by simp
  have e2 : A ++ B ++ C = A ++ (B ++ C) := by simp
  rw [e1, e2]
  exact List.perm_middle

/-- The concatenated output of the batch loop is a permutation of the
input, message ids preserved. -/
theorem batchGo_flatten_perm (f : Message → Category) (msgs : List Message) :
    ((batchGo f msgs).flatten.map Message.id).Perm (msgs.map Message.id) := by
  induction msgs with
  | nil => simp [batchGo, Categorized.flatten]
  | cons m rest ih =>
    simp only [Categorized.flatten, List.map_append] at ih
    cases hfm : f m
    case needs_reply =>
      simpa [batchGo, hfm, Categorized.add, Categorized.flatten, setCategory]
        using ih.cons m.id
    case important =>
      have h := (cons_middle_perm m.id
          ((batchGo f rest).needs_reply.map Message.id)
          ((batchGo f rest).important.map Message.id)
          ((batchGo f rest).ignore.map Message.id)).trans (ih.cons m.id)
      simpa [batchGo, hfm, Categorized.add, Categorized.flatten, setCategory] using h
    case ignore =>
      have h := List.perm_middle.trans (ih.cons m.id)
      simpa [batchGo, hfm, Categorized.add, Categorized.flatten, setCategory] using h

/-- Flattening a pointwise concatenation permutes the two flattenings. -/
theorem append_flatten_perm (a b : Categorized) :
    ((a.append b).flatten).Perm (a.flatten ++ b.flatten) := by
  simp only [Categorized.append, Categorized.flatten]
  rw [← Multiset.coe_eq_coe]
  simp only [← Multiset.coe_add]
  abel

/-- The two routed sublists of the batch orchestrator together are a
permutation of the input batch. -/
theorem route_perm (msgs : List Message) :
    ((MLClassifier.route msgs).2 ++ (MLClassifier.route msgs).1).Perm msgs := by
  have hperm0 : ((msgs.filter (fun m => MLClassifier.is_fastpath_sender m.sender)) ++
      (msgs.filter (fun m => !MLClassifier.is_fastpath_sender m.sender))).Perm msgs :=
    List.filter_append_perm _ msgs
  have hm0 : ((msgs.filter (fun m => MLClassifier.is_fastpath_sender m.sender) : Multiset Message)) +
      (msgs.filter (fun m => !MLClassifier.is_fastpath_sender m.sender)) = (msgs : Multiset Message) := by
    rw [Multiset.coe_add, Multiset.coe_eq_coe]
    exact hperm0
  by_cases h : 10 < (msgs.filter (fun m => !MLClassifier.is_fastpath_sender m.sender)).length
  · simp only [MLClassifier.route, if_pos h]
    rw [← Multiset.coe_eq_coe]
    simp only [← Multiset.coe_add]
    have htd : (((msgs.filter (fun m => !MLClassifier.is_fastpath_sender m.sender)).take 10 : Multiset Message)) +
        ((msgs.filter (fun m => !MLClassifier.is_fastpath_sender m.sender)).drop 10) =
        ((msgs.filter (fun m => !MLClassifier.is_fastpath_sender m.sender) : Multiset Message)) := by
      rw [Multiset.coe_add, Multiset.coe_eq_coe, List.take_append_drop]
    calc (((msgs.filter (fun m => !MLClassifier.is_fastpath_sender m.sender)).take 10 : Multiset Message)) +
          (((msgs.filter (fun m => MLClassifier.is_fastpath_sender m.sender) : Multiset Message)) +
            ((msgs.filter (fun m => !MLClassifier.is_fastpath_sender m.sender)).drop 10))
        = ((((msgs.filter (fun m => !MLClassifier.is_fastpath_sender m.sender)).take 10 : Multiset Message)) +
            ((msgs.filter (fun m => !MLClassifier.is_fastpath_sender m.sender)).drop 10)) +
            ((msgs.filter (fun m => MLClassifier.is_fastpath_sender m.sender) : Multiset Message)) := by
          abel
      _ = ((msgs.filter (fun m => !MLClassifier.is_fastpath_sender m.sender) : Multiset Message)) +
            ((msgs.filter (fun m => MLClassifier.is_fastpath_sender m.sender) : Multiset Message)) := by
          rw [htd]
      _ = (msgs : Multiset Message) := by rw [add_comm]; exact hm0
  · simp only [MLClassifier.route, if_neg h]
    exact List.perm_append_comm.trans hperm0

namespace MessageClassifier

/-- The PRIORITY 2 keyword loop can never fire for a non-marketing
sender: the two contextual ignore keywords are not members of
`ignore_keywords`, so the contextual branch is unreachable. -/
theorem ignoreKeywordFires_false (text : List Char) :
    ignoreKeywordFires false text = false := by
  have hctx : ∀ kw ∈ ignore_keywords, contextual_ignore_keywords.contains kw = false := by
    decide
  rw [ignoreKeywordFires, List.any_eq_false]
  intro kw hkw
  rw [hctx kw hkw]
  simp

/-- An important sender is never classified `ignore` by the rule engine:
the PRIORITY 1 branch only produces `needs_reply` or `important`. -/
theorem classify_message_ne_ignore_of_important (m : Message)
    (h : is_important_sender m.sender = true) :
    classify_message m ≠ Category.ignore := by
  rw [classify_message]
  simp only [h]
  split_ifs <;> simp

/-- For a non-important sender, the rule engine returns `ignore` exactly
when the sender is a marketing sender. -/
theorem classify_message_ignore_iff (m : Message)
    (h : is_important_sender m.sender = false) :
    classify_message m = Category.ignore ↔ is_marketing_sender m.sender = true := by
  constructor
  · intro hc
    by_cases hm : is_marketing_sender m.sender = true
    · exact hm
    · exfalso
      rw [Bool.not_eq_true] at hm
      simp only [classify_message, h, hm, ignoreKeywordFires_false,
        Bool.false_eq_true, if_false] at hc
      revert hc
      split_ifs <;> simp
  · intro hm
    simp [classify_message, h, hm]

end MessageClassifier

/-- A fast-path sender of the hybrid classifier is an important sender
of the rule engine (each fast-path substring is itself an important
domain or educational keyword, or contains one). -/
theorem fastpath_important (s : String)
    (h : MLClassifier.is_fastpath_sender s = true) :
    MessageClassifier.is_important_sender s = true := by
  rw [MLClassifier.is_fastpath_sender, List.any_eq_true] at h
  obtain ⟨p, hp, hsub⟩ := h
  rw [MessageClassifier.is_important_sender]
  simp only [Bool.or_eq_true, List.any_eq_true]
  simp only [MLClassifier.fastpath_patterns, List.map_cons, List.map_nil,
    List.mem_cons, List.not_mem_nil, or_false] at hp
  rcases hp with rfl | rfl | rfl | rfl | rfl | rfl | rfl
  · exact Or.inl (Or.inr ⟨"classroom.google.com".toList, by decide, hsub⟩)
  · refine Or.inl (Or.inr ⟨"edu".toList, by decide, ?_⟩)
    exact substr_mono ((substr_iff _ _).mp (by decide)) hsub
  · exact Or.inr ⟨"teacher".toList, by decide, hsub⟩
  · exact Or.inr ⟨"professor".toList, by decide, hsub⟩
  · exact Or.inr ⟨"instructor".toList, by decide, hsub⟩
  · exact Or.inr ⟨"faculty".toList, by decide, hsub⟩
  · exact Or.inr ⟨"staff".toList, by decide, hsub⟩

/-- The reply keyword table minus its first two entries (proof helper
for splitting off the `"?"` entry). -/
def restReplyKeywords : List (List Char) :=
  (["please", "request", "urgent",
    "asap", "deadline", "meeting", "call", "respond",
    "reply", "answer", "confirm", "approve", "review",
    "action required", "need your", "would you", "can you",
    "could you", "should we", "when can", "what time",
    "schedule", "availability", "feedback", "input",
    "submit", "complete", "fill out", "required", "must"]).map String.toList

/-- Splitting the reply keyword table around its `"?"` entry. -/
theorem reply_keywords_split :
    MessageClassifier.reply_keywords = "question".toList :: "?".toList :: restReplyKeywords := rfl

/-- Appending a question mark to a question-mark-free text raises the
reply score by exactly three: one point because `"?"` is itself a member
of the reply keyword table, plus the separate two-point question-mark
bonus. -/
theorem replyScore_append_qmark (text : List Char) (h : text.contains '?' = false) :
    MessageClassifier.replyScore (text ++ ['?']) = MessageClassifier.replyScore text + 3 := by
  have hq : '?' ∉ text := by simpa using h
  have hrest : ∀ k ∈ restReplyKeywords, k ≠ [] ∧ '?' ∉ k := by decide
  have hcongr : ∀ k ∈ restReplyKeywords,
      (substr k (text ++ ['?']) = true ↔ substr k text = true) := by
    intro k hk
    rw [substr_iff, substr_iff]
    exact infix_append_singleton_iff (hrest k hk).1 (hrest k hk).2
  have hquestion : substr "question".toList (text ++ ['?']) = substr "question".toList text := by
    rw [← Bool.coe_iff_coe, substr_iff, substr_iff]
    exact infix_append_singleton_iff (by decide) (by decide)
  have hqm_new : substr "?".toList (text ++ ['?']) = true := by
    rw [show ("?".toList) = ['?'] from rfl, substr_iff]
    exact ⟨text, [], by simp⟩
  have hqm_old : substr "?".toList text = false := by
    rw [show ("?".toList) = ['?'] from rfl, ← Bool.not_eq_true, substr_singleton_iff]
    exact hq
  rw [MessageClassifier.replyScore, MessageClassifier.replyScore, reply_keywords_split]
  simp only [List.countP_cons]
  rw [hquestion, hqm_new, hqm_old, List.countP_congr hcongr]
  rw [show (text ++ ['?']).contains '?' = true from by simp, h]
  simp
  omega

/-- Group lookup distributes over pointwise concatenation. -/
theorem Categorized.append_group (a b : Categorized) (c : Category) :
    (a.append b).group c = a.group c ++ b.group c := by
  cases c <;> rfl

/-- A message classified to `c` by the loop's category function lands in
group `c`, stamped with `c`. -/
theorem batchGo_mem_group (f : Message → Category) (msgs : List Message)
    (m : Message) (hm : m ∈ msgs) (c : Category) (hc : f m = c) :
    setCategory c m ∈ (batchGo f msgs).group c := by
  rw [batchGo_group]
  exact List.mem_map.mpr ⟨m, List.mem_filter.mpr ⟨hm, by simp [hc]⟩, rfl⟩

/-- The hybrid batch classifier loses and duplicates nothing: the
concatenated output groups are a permutation of the input (by id). -/
theorem ml_classify_batch_ids_perm (env : MLClassifier.MLEnv) (msgs : List Message) :
    ((MLClassifier.classify_batch env msgs).flatten.map Message.id).Perm
      (msgs.map Message.id) := by
  rw [MLClassifier.classify_batch]
  have h1 := (append_flatten_perm
      (batchGo (MLClassifier.mlCat env) (MLClassifier.route msgs).2)
      (batchGo (MessageClassifier.ruleCat env.excRule) (MLClassifier.route msgs).1)).map Message.id
  have h3 := batchGo_flatten_perm (MLClassifier.mlCat env) (MLClassifier.route msgs).2
  have h4 := batchGo_flatten_perm (MessageClassifier.ruleCat env.excRule) (MLClassifier.route msgs).1
  have h5 : (((MLClassifier.route msgs).2.map Message.id) ++
      ((MLClassifier.route msgs).1.map Message.id)).Perm (msgs.map Message.id) := by
    rw [← List.map_append]
    exact (route_perm msgs).map _
  refine h1.trans ?_
  rw [List.map_append]
  exact (h3.append h4).trans h5

/-- Concrete message: a question from a teacher (spec scenario 1). -/
def msgTeacher : Message :=
  ⟨"s1", "Please confirm attendance?", "teacher@school.edu", "", "2024-01-01T00:00:00Z", none⟩

/-- Concrete message: a marketing newsletter (spec scenario 2). -/
def msgNewsletter : Message :=
  ⟨"s2", "50% off sale this week", "newsletter@deals.com", "", "2024-01-01T00:00:00Z", none⟩

/-- Concrete message: a Google Classroom announcement (spec scenario 3). -/
def msgClassroom : Message :=
  ⟨"s3", "New announcement posted", "no-reply@classroom.google.com", "", "2024-01-01T00:00:00Z", none⟩

/-- Concrete message: a personal mail from a plain sender (spec scenario 4). -/
def msgFriend : Message :=
  ⟨"s4", "Lunch tomorrow?", "friend@gmail.com", "let me know", "2024-01-01T00:00:00Z", none⟩

/-- Concrete message: sender matching the rule engine's `university`
important-domain substring but none of the hybrid fast-path substrings. -/
def msgUniversity : Message :=
  ⟨"s5", "hello", "contact@stateuniversity.org", "", "2024-01-01T00:00:00Z", none⟩

/-- Concrete message: contextual ignore keywords plus a marketing
co-indicator in the text, from a neutral sender. -/
def msgAutomated : Message :=
  ⟨"s6", "automated notification about promotion", "friend@example.com", "", "2024-01-01T00:00:00Z", none⟩

/-- Concrete message: a marketing-domain sender. -/
def msgPromo : Message :=
  ⟨"s7", "weekly deals", "promo@shop.com", "", "2024-01-01T00:00:00Z", none⟩

/-- A batch of fifteen identical non-fast-path messages. -/
def msgsFifteen : List Message := List.replicate 15 msgFriend

/-- Environment with nothing loaded and no failures: rule-only mode. -/
def envNone : MLClassifier.MLEnv :=
  ⟨false, false, fun _ => none, fun _ => none, fun _ => false, fun _ => false,
   fun _ => false, fun _ => false, fun _ => false⟩

/-- Environment whose inference attempt always times out. -/
def envTimeout : MLClassifier.MLEnv :=
  ⟨true, true, fun _ => some "important", fun _ => some Category.important,
   fun _ => true, fun _ => false, fun _ => false, fun _ => false, fun _ => false⟩

/-- Environment whose zero-shot pipeline always answers the label
`"ignore"` and never fails. -/
def envIgnoreLabel : MLClassifier.MLEnv :=
  ⟨true, false, fun _ => some "ignore", fun _ => none, fun _ => false,
   fun _ => false, fun _ => false, fun _ => false, fun _ => false⟩

/-- Environment in which `classify_message` raises inside the batch loop
for every message, while the direct rule-based fallback succeeds. -/
def envExcDispatch : MLClassifier.MLEnv :=
  ⟨false, false, fun _ => none, fun _ => none, fun _ => false, fun _ => false,
   fun _ => false, fun _ => true, fun _ => false⟩

/-- Exception predicate that fires on every message. -/
def excAll : Message → Bool := fun _ => true

/-- C1: for every batch, both `MessageClassifier.classify_batch` and the
hybrid `MLClassifier.classify_batch` return three output groups that
partition the input exactly — no message lost, none duplicated —
regardless of inference outcomes, timeouts or per-message exceptions. -/
theorem claim_C1 (exc : Message → Bool) (env : MLClassifier.MLEnv) (msgs : List Message) :
    ((MessageClassifier.classify_batch exc msgs).flatten.map Message.id).Perm
      (msgs.map Message.id)
    ∧ ((MLClassifier.classify_batch env msgs).flatten.map Message.id).Perm
      (msgs.map Message.id) :=
  ⟨batchGo_flatten_perm _ msgs, ml_classify_batch_ids_perm env msgs⟩

/-- C2 counterexample: the sender `contact@stateuniversity.org` matches
the rule engine's important-sender patterns (important-domain substring
`university`), yet the hybrid classifier assigns it `ignore` when the
zero-shot pipeline answers the label `ignore`, because the sender matches
none of the hybrid fast-path substrings and is therefore routed to
inference. -/
theorem claim_C2_counterexample :
    MessageClassifier.is_important_sender msgUniversity.sender = true
    ∧ MLClassifier.classify_message envIgnoreLabel msgUniversity = Category.ignore := by
  constructor
  · decide
  · decide

/-- C2 as amended: the rule engine never classifies an important sender
`ignore`; the hybrid classifier never classifies `ignore` a message whose
sender matches its own (narrower) fast-path pattern set, since such
messages are routed to the rule engine; but an important sender outside
the fast-path set can be classified `ignore` by the hybrid classifier
when inference returns an ignore label. -/
theorem claim_C2_amended (m : Message) (env : MLClassifier.MLEnv) :
    (MessageClassifier.is_important_sender m.sender = true →
      MessageClassifier.classify_message m ≠ Category.ignore)
    ∧ (MLClassifier.is_fastpath_sender m.sender = true →
      MLClassifier.classify_message env m ≠ Category.ignore) := by
  constructor
  · exact MessageClassifier.classify_message_ne_ignore_of_important m
  · intro hf
    rw [MLClassifier.classify_message]
    simp only [hf, if_true]
    exact MessageClassifier.classify_message_ne_ignore_of_important m (fastpath_important _ hf)

/-- C2 witness: a teacher sender is both an important sender and a
fast-path sender, and neither classifier assigns it `ignore`. -/
theorem claim_C2_amended_witness :
    (MessageClassifier.is_important_sender msgTeacher.sender = true
      ∧ MessageClassifier.classify_message msgTeacher ≠ Category.ignore)
    ∧ (MLClassifier.is_fastpath_sender msgTeacher.sender = true
      ∧ MLClassifier.classify_message envNone msgTeacher ≠ Category.ignore) :=
  ⟨⟨by decide, (claim_C2_amended msgTeacher envNone).1 (by decide)⟩,
   ⟨by decide, (claim_C2_amended msgTeacher envNone).2 (by decide)⟩⟩

/-- C3 counterexample: appending a question mark to the question-mark-free
text `hello` changes the computed reply score by 3, not by 2 (the
question mark scores once as the `"?"` member of the reply keyword table
and twice more as the independent bonus). -/
theorem claim_C3_counterexample :
    "hello".toList.contains '?' = false
    ∧ MessageClassifier.replyScore ("hello".toList ++ ['?'])
        ≠ MessageClassifier.replyScore "hello".toList + 2 := by
  constructor
  · decide
  · decide

/-- C3 as amended: for every text containing no question mark, appending
a question mark changes the computed reply score by exactly +3 — +1
because `"?"` is itself an entry of the reply keyword table, +2 from the
independent question-mark bonus. The change is still monotonic. -/
theorem claim_C3_amended (text : List Char) (h : text.contains '?' = false) :
    MessageClassifier.replyScore (text ++ ['?'])
      = MessageClassifier.replyScore text + 3 :=
  replyScore_append_qmark text h

/-- C3 witness: the amended claim at the concrete text `greetings`. -/
theorem claim_C3_amended_witness :
    "greetings".toList.contains '?' = false
    ∧ MessageClassifier.replyScore ("greetings".toList ++ ['?'])
        = MessageClassifier.replyScore "greetings".toList + 3 :=
  ⟨by decide, claim_C3_amended "greetings".toList (by decide)⟩

/-- C4: the batch orchestrator routes at most 10 messages to the
inference path; the rule-routed list is exactly the fast-path messages
followed by the beyond-cap excess, and (absent exceptions) each of them
is classified by the rule engine into the matching output group; and a
batch of 15 non-fast-path messages yields exactly 10 inference-eligible
messages, 5 rule-routed ones, and output groups that together hold all
15 messages. -/
theorem claim_C4 (env : MLClassifier.MLEnv) (msgs : List Message) :
    (MLClassifier.route msgs).2.length ≤ 10
    ∧ (MLClassifier.route msgs).1 =
        msgs.filter (fun m => MLClassifier.is_fastpath_sender m.sender)
          ++ (msgs.filter (fun m => !MLClassifier.is_fastpath_sender m.sender)).drop 10
    ∧ (∀ m ∈ (MLClassifier.route msgs).1, env.excRule m = false →
        setCategory (MessageClassifier.classify_message m) m ∈
          (MLClassifier.classify_batch env msgs).group (MessageClassifier.classify_message m))
    ∧ ((∀ m ∈ msgs, MLClassifier.is_fastpath_sender m.sender = false) → msgs.length = 15 →
        (MLClassifier.route msgs).2.length = 10
        ∧ (MLClassifier.route msgs).1.length = 5
        ∧ (MLClassifier.classify_batch env msgs).flatten.length = 15) := by
  refine ⟨?_, ?_, ?_, ?_⟩
  · rw [MLClassifier.route]
    by_cases h : 10 < (msgs.filter (fun m => !MLClassifier.is_fastpath_sender m.sender)).length
    · simp only [if_pos h, List.length_take]
      omega
    · simp only [if_neg h]
      omega
  · rw [MLClassifier.route]
    by_cases h : 10 < (msgs.filter (fun m => !MLClassifier.is_fastpath_sender m.sender)).length
    · simp only [if_pos h]
    · simp only [if_neg h]
      rw [List.drop_eq_nil_of_le (by omega), List.append_nil]
  · intro m hm hexc
    rw [MLClassifier.classify_batch, Categorized.append_group]
    refine List.mem_append_right _ ?_
    exact batchGo_mem_group _ _ m hm _ (by simp [MessageClassifier.ruleCat, hexc])
  · intro hall h15
    have hfilter : msgs.filter (fun m => !MLClassifier.is_fastpath_sender m.sender) = msgs := by
      rw [List.filter_eq_self]
      intro m hm
      simp [hall m hm]
    have hfilter2 : msgs.filter (fun m => MLClassifier.is_fastpath_sender m.sender) = [] := by
      rw [List.filter_eq_nil_iff]
      intro m hm
      simp [hall m hm]
    have hroute : MLClassifier.route msgs = (msgs.drop 10, msgs.take 10) := by
      rw [MLClassifier.route, hfilter, hfilter2]
      rw [if_pos (by omega)]
      simp
    refine ⟨?_, ?_, ?_⟩
    · rw [hroute]
      simp only [List.length_take]
      omega
    · rw [hroute]
      simp only [List.length_drop]
      omega
    · have hperm := ml_classify_batch_ids_perm env msgs
      have := hperm.length_eq
      simpa [h15] using this

/-- C4 witness: a batch of 15 identical non-fast-path messages routes
10 messages to inference and 5 to the rule engine, the output groups
hold all 15, and the first rule-routed message is classified by the rule
engine into the matching group. -/
theorem claim_C4_witness :
    (∀ m ∈ msgsFifteen, MLClassifier.is_fastpath_sender m.sender = false)
    ∧ msgsFifteen.length = 15
    ∧ ((MLClassifier.route msgsFifteen).2.length = 10
       ∧ (MLClassifier.route msgsFifteen).1.length = 5
       ∧ (MLClassifier.classify_batch envNone msgsFifteen).flatten.length = 15)
    ∧ (msgFriend ∈ (MLClassifier.route msgsFifteen).1 ∧ envNone.excRule msgFriend = false
       ∧ setCategory (MessageClassifier.classify_message msgFriend) msgFriend ∈
           (MLClassifier.classify_batch envNone msgsFifteen).group
             (MessageClassifier.classify_message msgFriend)) :=
  ⟨by decide, by decide,
   (claim_C4 envNone msgsFifteen).2.2.2 (by decide) (by decide),
   ⟨by decide, rfl,
    (claim_C4 envNone msgsFifteen).2.2.1 msgFriend (by decide) rfl⟩⟩

/-- C5: whenever the inference attempt times out, raises (memory errors
included, behaving identically), or the pipeline and model are both
unavailable, the hybrid dispatcher returns exactly the rule engine's
category and never propagates the failure. -/
theorem claim_C5 (env : MLClassifier.MLEnv) (m : Message)
    (hfail : env.timedOut m = true ∨ env.memErr m = true ∨ env.otherErr m = true
      ∨ (env.pipelineAvailable = false ∧ env.modelAvailable = false)) :
    MLClassifier.classify_message env m = MessageClassifier.classify_message m := by
  rw [MLClassifier.classify_message]
  by_cases hf : MLClassifier.is_fastpath_sender m.sender = true
  · simp [hf]
  · rw [Bool.not_eq_true] at hf
    simp only [hf, Bool.false_eq_true, if_false]
    have hnone : MLClassifier.classify_with_ml_timeout env m = none := by
      rw [MLClassifier.classify_with_ml_timeout]
      rcases hfail with h | h | h | ⟨h1, h2⟩
      · simp [h]
      · simp [h]
      · simp [h]
      · by_cases hc : (env.timedOut m || env.memErr m || env.otherErr m) = true
        · simp [hc]
        · rw [Bool.not_eq_true] at hc
          simp [hc, MLClassifier.ml_classify_inner, h1, h2]
    rw [hnone]

/-- C5 witness: with a pipeline that always times out, the dispatcher
returns the rule engine's category for the concrete friend message. -/
theorem claim_C5_witness :
    envTimeout.timedOut msgFriend = true
    ∧ MLClassifier.classify_message envTimeout msgFriend
        = MessageClassifier.classify_message msgFriend :=
  ⟨rfl, claim_C5 envTimeout msgFriend (Or.inl rfl)⟩

/-- C6 counterexample: in a batch whose single message is routed to the
inference path, an exception escaping `classify_message` does not place
the message in the `important` group — the handler first retries the
rule engine, which classifies this marketing newsletter `ignore`. -/
theorem claim_C6_counterexample :
    envExcDispatch.excDispatch msgNewsletter = true
    ∧ (MLClassifier.classify_batch envExcDispatch [msgNewsletter]).important = []
    ∧ (MLClassifier.classify_batch envExcDispatch [msgNewsletter]).ignore
        = [setCategory Category.ignore msgNewsletter] := by
  refine ⟨rfl, ?_, ?_⟩
  · decide
  · decide

/-- C6 as amended: an exception in the rule-routed path defaults the
message to `important`; an exception in the inference-routed path first
falls back to a direct rule-engine classification, and defaults to
`important` only when that fallback raises as well; in every case the
rest of the batch is processed. -/
theorem claim_C6_amended (exc : Message → Bool) (env : MLClassifier.MLEnv)
    (msgs : List Message) (m : Message) :
    (m ∈ msgs → exc m = true →
      setCategory Category.important m ∈ (MessageClassifier.classify_batch exc msgs).important)
    ∧ (m ∈ (MLClassifier.route msgs).1 → env.excRule m = true →
      setCategory Category.important m ∈ (MLClassifier.classify_batch env msgs).important)
    ∧ (m ∈ (MLClassifier.route msgs).2 → env.excDispatch m = true → env.excRule m = true →
      setCategory Category.important m ∈ (MLClassifier.classify_batch env msgs).important)
    ∧ (m ∈ (MLClassifier.route msgs).2 → env.excDispatch m = true → env.excRule m = false →
      setCategory (MessageClassifier.classify_message m) m ∈
        (MLClassifier.classify_batch env msgs).group (MessageClassifier.classify_message m)) := by
  refine ⟨?_, ?_, ?_, ?_⟩
  · intro hm hexc
    exact batchGo_mem_group _ _ m hm Category.important
      (by simp [MessageClassifier.ruleCat, hexc])
  · intro hm hexc
    have h := batchGo_mem_group (MessageClassifier.ruleCat env.excRule)
      (MLClassifier.route msgs).1 m hm Category.important
      (by simp [MessageClassifier.ruleCat, hexc])
    rw [MLClassifier.classify_batch]
    exact List.mem_append_right _ h
  · intro hm h1 h2
    have h := batchGo_mem_group (MLClassifier.mlCat env)
      (MLClassifier.route msgs).2 m hm Category.important
      (by simp [MLClassifier.mlCat, h1, h2])
    rw [MLClassifier.classify_batch]
    exact List.mem_append_left _ h
  · intro hm h1 h2
    have h := batchGo_mem_group (MLClassifier.mlCat env)
      (MLClassifier.route msgs).2 m hm (MessageClassifier.classify_message m)
      (by simp [MLClassifier.mlCat, h1, h2])
    rw [MLClassifier.classify_batch, Categorized.append_group]
    exact List.mem_append_left _ h

/-- C6 witness: the amended claim instantiated on a one-message batch,
for the rule-path default and for the inference-path fallback. -/
theorem claim_C6_amended_witness :
    (msgNewsletter ∈ [msgNewsletter] ∧ excAll msgNewsletter = true
      ∧ setCategory Category.important msgNewsletter ∈
          (MessageClassifier.classify_batch excAll [msgNewsletter]).important)
    ∧ (msgNewsletter ∈ (MLClassifier.route [msgNewsletter]).2
      ∧ envExcDispatch.excDispatch msgNewsletter = true
      ∧ envExcDispatch.excRule msgNewsletter = false
      ∧ setCategory (MessageClassifier.classify_message msgNewsletter) msgNewsletter ∈
          (MLClassifier.classify_batch envExcDispatch [msgNewsletter]).group
            (MessageClassifier.classify_message msgNewsletter)) :=
  ⟨⟨by decide, rfl,
    (claim_C6_amended excAll envNone [msgNewsletter] msgNewsletter).1 (by decide) rfl⟩,
   ⟨by decide, rfl, rfl,
    (claim_C6_amended excAll envExcDispatch [msgNewsletter] msgNewsletter).2.2.2
      (by decide) rfl rfl⟩⟩

/-- C7: the contextual-ignore rule is dead code, and the claim's premise
does not produce `ignore`. For the concrete message whose text contains
the contextual keyword `automated` (and `notification`) together with
the marketing co-indicator `promotion`, from a sender that is neither
important nor marketing, the rule engine returns `important` — not
`ignore` as specified — because the loop ranges over `ignore_keywords`,
which contains neither contextual keyword. -/
theorem claim_C7 :
    "automated".toList ∈ MessageClassifier.contextual_ignore_keywords
    ∧ "notification".toList ∈ MessageClassifier.contextual_ignore_keywords
    ∧ "automated".toList ∉ MessageClassifier.ignore_keywords
    ∧ "notification".toList ∉ MessageClassifier.ignore_keywords
    ∧ substr "automated".toList
        (lowerChars msgAutomated.subject ++ ' ' :: lowerChars msgAutomated.preview) = true
    ∧ substr "promotion".toList
        (lowerChars msgAutomated.subject ++ ' ' :: lowerChars msgAutomated.preview) = true
    ∧ MessageClassifier.is_important_sender msgAutomated.sender = false
    ∧ MessageClassifier.is_marketing_sender msgAutomated.sender = false
    ∧ MessageClassifier.classify_message msgAutomated = Category.important := by
  refine ⟨by decide, by decide, by decide, by decide, by decide, by decide,
    by decide, by decide, by decide⟩

/-- C8: the Google Classroom announcement message is classified
`important` by the rule engine (important sender, no-reply sender,
informational text), and the hybrid classifier returns the same
`important` through its rule-based fast path in every environment. -/
theorem claim_C8 :
    MessageClassifier.classify_message msgClassroom = Category.important
    ∧ ∀ env : MLClassifier.MLEnv,
        MLClassifier.classify_message env msgClassroom = Category.important := by
  constructor
  · decide
  · intro env
    have hf : MLClassifier.is_fastpath_sender msgClassroom.sender = true := by decide
    rw [MLClassifier.classify_message]
    simp only [hf, if_true]
    decide

/-- C9: for a feedback store with at least one correction, the accuracy
estimate is computed over the window of the most recent
`min 50 total` corrections as correct-in-window divided by window size
times 100; the empty store yields no numeric estimate. -/
theorem claim_C9 (cs : List ModelLearningSystem.Correction) (h : cs ≠ []) :
    ModelLearningSystem.get_accuracy_estimate cs = some
      ⟨(((cs.drop (cs.length - min 50 cs.length)).countP
            (fun c => c.predicted == c.correct) : ℚ) / ((min 50 cs.length : Nat) : ℚ)) * 100,
        cs.length,
        min 50 cs.length,
        (cs.drop (cs.length - min 50 cs.length)).countP (fun c => c.predicted == c.correct),
        min 50 cs.length -
          (cs.drop (cs.length - min 50 cs.length)).countP (fun c => c.predicted == c.correct)⟩
    ∧ ModelLearningSystem.get_accuracy_estimate ([] : List ModelLearningSystem.Correction)
        = none := by
  constructor
  · have hne : cs.isEmpty = false := by
      rw [← Bool.not_eq_true, List.isEmpty_iff]
      exact h
    have hmin : cs.length - 50 = cs.length - min 50 cs.length := by omega
    have hpos : 0 < cs.length := List.length_pos.mpr h
    have hlen2 : (cs.drop (cs.length - min 50 cs.length)).length = min 50 cs.length := by
      rw [List.length_drop]
      omega
    rw [ModelLearningSystem.get_accuracy_estimate]
    rw [hne]
    simp only [Bool.false_eq_true, if_false, hmin, hlen2]
    rw [if_pos (show 0 < min 50 cs.length from by omega)]
  · rfl

/-- A two-element correction store, the first entry predicted correctly. -/
def correctionsTwo : List ModelLearningSystem.Correction :=
  [⟨"m1", "t1", "important", "important", "s1", "a@b", ""⟩,
   ⟨"m2", "t2", "ignore", "important", "s2", "a@b", ""⟩]

/-- C9 witness: a two-correction store, one of them correct, gives the
estimate 50. -/
theorem claim_C9_witness :
    correctionsTwo ≠ []
    ∧ ModelLearningSystem.get_accuracy_estimate correctionsTwo = some ⟨50, 2, 2, 1, 1⟩ := by
  constructor
  · decide
  · rw [(claim_C9 correctionsTwo (by decide)).1]
    simp only [Option.some.injEq, ModelLearningSystem.AccuracyEstimate.mk.injEq]
    have hc : (correctionsTwo.drop
        (correctionsTwo.length - min 50 correctionsTwo.length)).countP
        (fun c => c.predicted == c.correct) = 1 := by decide
    have hl : min 50 correctionsTwo.length = 2 := by decide
    refine ⟨?_, by decide, hl, hc, ?_⟩
    · rw [hc, hl]
      norm_num
    · rw [hc, hl]

/-- C10: for a non-important sender, the rule engine returns `ignore`
exactly when the sender is a marketing sender; text keywords alone never
cause `ignore`. -/
theorem claim_C10 (m : Message)
    (h : MessageClassifier.is_important_sender m.sender = false) :
    MessageClassifier.classify_message m = Category.ignore
      ↔ MessageClassifier.is_marketing_sender m.sender = true :=
  MessageClassifier.classify_message_ignore_iff m h

/-- C10 witness: the marketing-domain sender `promo@shop.com` is not an
important sender, and the equivalence holds for it concretely. -/
theorem claim_C10_witness :
    MessageClassifier.is_important_sender msgPromo.sender = false
    ∧ (MessageClassifier.classify_message msgPromo = Category.ignore
        ↔ MessageClassifier.is_marketing_sender msgPromo.sender = true) :=
  ⟨by decide, claim_C10 msgPromo (by decide)⟩
